import Mathlib

/-!
Verification development for the teaching-analytics prompt-to-query engine.

The definitions below are a shallow embedding of the Python source:
  * `src/src/prompt_analyzer.py`   — `PromptAnalyzer.analyze_prompt`,
    `extract_number`, `match_template`, `process_prompt`;
  * `src/deployment/visualization_generator.py` —
    `VisualizationGenerator.create_custom_visualization` (the query-building
    part, lines 1095-1237, and the aggregate SQL expressions it emits).

Strings are modelled as Lean `String` (a list of characters); the Python
regular expressions used by the source are specialised: each concrete
pattern of the source is implemented directly, with Python's leftmost-match,
greedy-with-backtracking semantics for that pattern shape.  The embedding is
ASCII-faithful: `\s`, `\d`, `[a-zA-Z]` and case-insensitivity are modelled
over the ASCII range, which is the range the source's keyword tables and
query text live in.
-/

set_option maxRecDepth 40000

namespace TA

/-! ### Character classes (ASCII models of Python `\s`, `\d`, `[a-zA-Z]`) -/

def isSpaceChar (c : Char) : Bool :=
  c == ' ' || c == '\t' || c == '\n' || c == '\r' || c == '\x0b' || c == '\x0c'

def isDigitChar (c : Char) : Bool :=
  '0' ≤ c && c ≤ '9'

def isAsciiLetter (c : Char) : Bool :=
  ('a' ≤ c && c ≤ 'z') || ('A' ≤ c && c ≤ 'Z')

/-- The character class `[a-zA-Z\s]` of the source's filter-value regexes. -/
def isFilterClass (c : Char) : Bool :=
  isAsciiLetter c || isSpaceChar c

/-- ASCII lower-casing of one character (model of `str.lower` per character). -/
def lowerChar (c : Char) : Char :=
  if 'A' ≤ c && c ≤ 'Z' then Char.ofNat (c.toNat + 32) else c

def lowerList (l : List Char) : List Char := l.map lowerChar

/-- Model of Python `str.lower()` on ASCII text. -/
def lower (s : String) : String := ⟨lowerList s.data⟩

/-! ### Substring search (Python `needle in haystack`) -/

def startsHere : List Char → List Char → Bool
  | [], _ => true
  | _ :: _, [] => false
  | n :: ns, h :: hs => n == h && startsHere ns hs

def containsList : List Char → List Char → Bool
  | hay, needle =>
    startsHere needle hay ||
      match hay with
      | [] => false
      | _ :: t => containsList t needle

/-- Model of Python `needle in hay` (substring containment). -/
def containsStr (hay needle : String) : Bool := containsList hay.data needle.data

/-! ### `PromptAnalyzer.extract_number` (prompt_analyzer.py lines 140-160) -/

def digitsToNat (l : List Char) : Nat :=
  l.foldl (fun acc c => acc * 10 + (c.toNat - '0'.toNat)) 0

/-- Model of `re.search(r'top\s+(\d+)', text.lower())`: find the leftmost
position where the literal `top` is followed by at least one whitespace
character and then at least one digit; return the greedy digit run. -/
def findTopNum : List Char → Option Nat
  | [] => none
  | l@(_ :: t) =>
    (if startsHere ['t', 'o', 'p'] l then
      let r1 := l.drop 3
      let sp := r1.takeWhile isSpaceChar
      if sp.isEmpty then none
      else
        let r2 := r1.drop sp.length
        let ds := r2.takeWhile isDigitChar
        if ds.isEmpty then none else some (digitsToNat ds)
    else none).orElse (fun _ => findTopNum t)

/-- Model of `re.findall(r'\d+', text)` followed by taking the first run. -/
def findFirstNat : List Char → Option Nat
  | [] => none
  | c :: t =>
    if isDigitChar c then some (digitsToNat ((c :: t).takeWhile isDigitChar))
    else findFirstNat t

/-- `PromptAnalyzer.extract_number`: `top N` pattern on the lowered text
first, otherwise the first bare integer, otherwise none. -/
def extract_number (text : String) : Option Nat :=
  (findTopNum (lowerList text.data)).orElse (fun _ => findFirstNat text.data)

/-! ### The resolved parameter set (the `params` dict of `analyze_prompt`) -/

/-- Insertion-ordered string map, modelling a Python `dict` with string
values: assigning an existing key updates it in place, a new key is
appended. -/
def dictInsert : List (String × String) → String → String → List (String × String)
  | [], k, v => [(k, v)]
  | (k', v') :: rest, k, v =>
    if k' == k then (k, v) :: rest else (k', v') :: dictInsert rest k v

def dictLookup : List (String × String) → String → Option String
  | [], _ => none
  | (k', v') :: rest, k => if k' == k then some v' else dictLookup rest k

structure Params where
  query_type : String
  entity_type : String
  metric : String
  dimension : String
  limit : Nat
  filters : List (String × String)
deriving Repr, DecidableEq

/-- The default parameters of `analyze_prompt` (lines 173-180). -/
def defaultParams : Params :=
  { query_type := "top"
    entity_type := "programs"
    metric := "revenue"
    dimension := "program_name"
    limit := 5
    filters := [] }

/-! ### The keyword lexicon (`self.keywords`, lines 21-58) -/

def clientKws : List String :=
  ["client", "clients", "customer", "customers", "organization", "organizations"]
def programKws : List String :=
  ["program", "programs", "course", "courses", "training", "trainings"]
def enrollmentKws : List String :=
  ["enrollment", "enrollments", "registration", "registrations"]
def opportunityKws : List String :=
  ["opportunity", "opportunities", "pipeline", "deal", "deals", "lead", "leads"]

def revenueKws : List String :=
  ["revenue", "sales", "income", "earnings", "money", "payment", "payments"]
def profitKws : List String :=
  ["profit", "profits", "margin", "margins", "profitability", "earnings"]
def costKws : List String :=
  ["cost", "costs", "expense", "expenses", "spending", "expenditure"]
def countKws : List String :=
  ["count", "number", "quantity", "total", "amount"]
def trendKws : List String :=
  ["trend", "trends", "over time", "history", "historical", "pattern", "patterns"]

def industryKws : List String := ["industry", "industries", "sector", "sectors"]
def regionKws : List String :=
  ["region", "regions", "location", "locations", "area", "areas", "geography"]
def sizeKws : List String := ["size", "sizes", "company size", "organization size"]
def categoryKws : List String := ["category", "categories", "type", "types"]
def deliveryModeKws : List String :=
  ["delivery mode", "delivery", "mode", "online", "in-person", "virtual", "classroom"]
def timeKws : List String :=
  ["time", "month", "months", "year", "years", "quarter", "quarters", "date", "dates", "period"]

def topKws : List String :=
  ["top", "best", "highest", "most", "largest", "biggest", "greatest"]
def bottomKws : List String := ["bottom", "worst", "lowest", "least", "smallest"]
def averageKws : List String := ["average", "avg", "mean", "median", "typical"]
def comparisonKws : List String :=
  ["compare", "comparison", "versus", "vs", "against", "difference", "differences"]
def distributionKws : List String :=
  ["distribution", "breakdown", "composition", "makeup", "split", "segmentation"]

def thisMonthKws : List String := ["this month", "current month"]
def lastMonthKws : List String := ["last month", "previous month"]
def thisQuarterKws : List String := ["this quarter", "current quarter"]
def lastQuarterKws : List String := ["last quarter", "previous quarter"]
def thisYearKws : List String := ["this year", "current year"]
def lastYearKws : List String := ["last year", "previous year"]

/-- `any keyword of the category occurs in the lowered prompt` — this is the
observable effect of the source's inner `for keyword in keywords:
if keyword in prompt.lower(): ...; break` loop, whose body depends only on
the category, not on which keyword hit. -/
def anyKw (kws : List String) (pl : String) : Bool :=
  kws.any (fun kw => containsStr pl kw)

/-! ### The five lexicon passes of `analyze_prompt` (lines 190-290).

Each pass is transcribed from the source's outer `for category in
dict.items()` loop: the outer loop has **no** break, so every category is
tried in insertion order, and each matching category applies its update. -/

def entityPass (pl : String) (p : Params) : Params :=
  let p := if anyKw clientKws pl then
      { p with entity_type := "clients", dimension := "client_name" } else p
  let p := if anyKw programKws pl then
      { p with entity_type := "programs", dimension := "program_name" } else p
  let p := if anyKw enrollmentKws pl then { p with entity_type := "enrollments" } else p
  let p := if anyKw opportunityKws pl then { p with entity_type := "opportunities" } else p
  p

/-- The `count` category update (lines 219-227) branches on the current
`entity_type`. -/
def countUpdate (p : Params) : Params :=
  if p.entity_type == "clients" then { p with metric := "client_count" }
  else if p.entity_type == "programs" then { p with metric := "program_count" }
  else if p.entity_type == "enrollments" then { p with metric := "enrollment_count" }
  else if p.entity_type == "opportunities" then { p with metric := "opportunity_count" }
  else p

def metricPass (pl : String) (p : Params) : Params :=
  let p := if anyKw revenueKws pl then { p with metric := "revenue" } else p
  let p := if anyKw profitKws pl then
      (if containsStr pl "margin" then { p with metric := "profit_margin" }
       else { p with metric := "profit" }) else p
  let p := if anyKw costKws pl then { p with metric := "cost" } else p
  let p := if anyKw countKws pl then countUpdate p else p
  let p := if anyKw trendKws pl then
      { p with query_type := "trend", dimension := "month" } else p
  p

def dimensionPass (pl : String) (p : Params) : Params :=
  let p := if anyKw industryKws pl then { p with dimension := "industry" } else p
  let p := if anyKw regionKws pl then { p with dimension := "region" } else p
  let p := if anyKw sizeKws pl then { p with dimension := "size" } else p
  let p := if anyKw categoryKws pl then { p with dimension := "category" } else p
  let p := if anyKw deliveryModeKws pl then { p with dimension := "delivery_mode" } else p
  let p := if anyKw timeKws pl then
      { p with dimension := "month", query_type := "trend" } else p
  p

def queryTypePass (pl : String) (p : Params) : Params :=
  let p := if anyKw topKws pl then { p with query_type := "top" } else p
  let p := if anyKw bottomKws pl then { p with query_type := "bottom" } else p
  let p := if anyKw averageKws pl then { p with query_type := "average" } else p
  let p := if anyKw comparisonKws pl then { p with query_type := "comparison" } else p
  let p := if anyKw distributionKws pl then { p with query_type := "distribution" } else p
  p

/-- One time-period category: on a match set both date filter keys. -/
def timeStep (hit : Bool) (vFrom vTo : String) (p : Params) : Params :=
  if hit then
    { p with filters := dictInsert (dictInsert p.filters "date_from" vFrom) "date_to" vTo }
  else p

def timePeriodPass (pl : String) (p : Params) : Params :=
  let p := timeStep (anyKw thisMonthKws pl)
      "date(\"now\", \"start of month\")" "date(\"now\")" p
  let p := timeStep (anyKw lastMonthKws pl)
      "date(\"now\", \"start of month\", \"-1 month\")"
      "date(\"now\", \"start of month\", \"-1 day\")" p
  let p := timeStep (anyKw thisQuarterKws pl)
      "date(\"now\", \"start of month\", \"-\" || (strftime(\"%m\", \"now\") - 1) % 3 || \" months\")"
      "date(\"now\")" p
  let p := timeStep (anyKw lastQuarterKws pl)
      "date(\"now\", \"start of month\", \"-\" || (strftime(\"%m\", \"now\") - 1) % 3 + 3 || \" months\")"
      "date(\"now\", \"start of month\", \"-\" || (strftime(\"%m\", \"now\") - 1) % 3 || \" months\", \"-1 day\")" p
  let p := timeStep (anyKw thisYearKws pl)
      "date(\"now\", \"start of year\")" "date(\"now\")" p
  let p := timeStep (anyKw lastYearKws pl)
      "date(\"now\", \"start of year\", \"-1 year\")"
      "date(\"now\", \"start of year\", \"-1 day\")" p
  p

/-! ### The explicit-filter regexes (lines 292-321).

Each source pattern has the shape
`name\s+(?:sep1|sep2|...)\s+([a-zA-Z\s]+)` with `re.IGNORECASE`, searched
with `re.search` (leftmost match; the capture is taken from the original,
non-lowered text).  The implementation below reproduces Python's semantics
for exactly this pattern shape:

* the first `\s+` is matched greedily; no backtracking into it can help,
  because every separator alternative starts with a non-whitespace
  character;
* the separator alternatives are tried in the pattern's order, moving on to
  the next alternative when the rest of the pattern fails after it;
* `\s+([a-zA-Z\s]+)` after the separator: the `\s+` is matched greedily;
  if the character after the greedy whitespace run is a letter the capture
  is the greedy run of `[a-zA-Z\s]` from there; otherwise the engine
  backtracks one whitespace character (possible only when the run has
  length ≥ 2), making the capture that single whitespace character. -/

/-- Case-insensitive literal match at the head of the text; returns the
rest of the text on success.  (The pattern literals are lower-case.) -/
def matchLit : List Char → List Char → Option (List Char)
  | [], rest => some rest
  | _ :: _, [] => none
  | p :: ps, c :: cs => if lowerChar c == p then matchLit ps cs else none

/-- Match `\s+([a-zA-Z\s]+)` at the head of `l`; return the capture. -/
def matchTail (l : List Char) : Option (List Char) :=
  let w := l.takeWhile isSpaceChar
  if w.isEmpty then none
  else
    let q := l.drop w.length
    match q.head? with
    | some c =>
      if isAsciiLetter c then some (q.takeWhile isFilterClass)
      else match w.reverse with
        | c' :: _ :: _ => some [c']
        | _ => none
    | none =>
      match w.reverse with
      | c' :: _ :: _ => some [c']
      | _ => none

/-- Try the separator alternatives in order; on a separator hit whose tail
fails, fall through to the next alternative. -/
def trySeps : List (List Char) → List Char → Option (List Char)
  | [], _ => none
  | s :: ss, r =>
    match matchLit s r with
    | some r' =>
      match matchTail r' with
      | some cap => some cap
      | none => trySeps ss r
    | none => trySeps ss r

/-- Match the whole pattern anchored at the head of `l`. -/
def matchFilterAt (name : List Char) (seps : List (List Char)) (l : List Char) :
    Option (List Char) :=
  match matchLit name l with
  | none => none
  | some r1 =>
    let w := r1.takeWhile isSpaceChar
    if w.isEmpty then none else trySeps seps (r1.drop w.length)

/-- `re.search`: try every start position left to right. -/
def searchFilter (name : List Char) (seps : List (List Char)) : List Char → Option (List Char)
  | [] => matchFilterAt name seps []
  | l@(_ :: t) =>
    match matchFilterAt name seps l with
    | some cap => some cap
    | none => searchFilter name seps t

/-- Python `str.strip()` on ASCII whitespace: drop trailing whitespace,
then leading whitespace. -/
def stripList (l : List Char) : List Char :=
  ((l.reverse.dropWhile isSpaceChar).reverse).dropWhile isSpaceChar

/-- One explicit-filter extraction: the trimmed capture of the source's
pattern for the given name and separator alternatives, or none. -/
def filterCapture (text : String) (name : String) (seps : List String) : Option String :=
  (searchFilter name.data (seps.map String.data) text.data).map
    (fun cap => ⟨stripList cap⟩)

/-- The standard separators `(?:is|=|:)` used by five of the six patterns. -/
def stdSeps : List String := ["is", "=", ":"]

/-- The separators `(?:mode|is|=|:)` of the delivery-mode pattern. -/
def deliverySeps : List String := ["mode", "is", "=", ":"]

/-- One conditional filter insertion (`if match: params['filters'][key] = ...`). -/
def filterStep (text : String) (name : String) (seps : List String) (key : String)
    (p : Params) : Params :=
  match filterCapture text name seps with
  | some v => { p with filters := dictInsert p.filters key v }
  | none => p

/-- The six explicit-filter extractions of lines 292-321, in source order.
They run on the original (non-lowered) prompt with case-insensitive
matching. -/
def filterPass (text : String) (p : Params) : Params :=
  let p := filterStep text "industry" stdSeps "industry" p
  let p := filterStep text "region" stdSeps "region" p
  let p := filterStep text "size" stdSeps "size" p
  let p := filterStep text "category" stdSeps "category" p
  let p := filterStep text "delivery" deliverySeps "delivery_mode" p
  let p := filterStep text "stage" stdSeps "stage" p
  p

/-! ### `PromptAnalyzer.analyze_prompt` (lines 162-323) -/

/-- The limit extraction step (lines 186-188): `if limit:` is Python
truthiness, so an extracted `0` keeps the default. -/
def limitStep (prompt : String) (p : Params) : Params :=
  match extract_number prompt with
  | some n => if n ≠ 0 then { p with limit := n } else p
  | none => p

def analyze_prompt (prompt : String) : Params :=
  let pl := lower prompt
  filterPass prompt
    (timePeriodPass pl
      (queryTypePass pl
        (dimensionPass pl
          (metricPass pl
            (entityPass pl
              (limitStep prompt defaultParams))))))

/-! ### `VisualizationGenerator.create_custom_visualization`: the query
builder (visualization_generator.py lines 1095-1237).

The source builds five clause lists and concatenates them into one SQL
string; there is no validation of the entity/metric/dimension combination
anywhere on this path, and no error is ever raised by the construction
itself (only query *execution* can fail later). -/

structure QueryParts where
  selects : List String
  froms : List String
  wheres : List String
  groups : List String
  orders : List String
deriving Repr, DecidableEq

/-- The entity-type section (lines 1103-1162): base relation, optional
join, and the dimension's select/group/where contributions. -/
def entityParts (entity_type metric dimension : String) :
    List String × List String × List String × List String :=
  if entity_type == "clients" then
    let f := ["clients c"] ++
      (if metric == "revenue" || metric == "profit" || metric == "enrollment_count" then
        ["JOIN enrollments e ON c.client_id = e.client_id"] else [])
    if dimension == "industry" || dimension == "size" || dimension == "region" then
      (["c." ++ dimension], f, ["c." ++ dimension ++ " IS NOT NULL"], ["c." ++ dimension])
    else ([], f, [], [])
  else if entity_type == "programs" then
    let f := ["programs p"] ++
      (if metric == "revenue" || metric == "profit" || metric == "enrollment_count" then
        ["JOIN enrollments e ON p.program_id = e.program_id"] else [])
    if dimension == "category" || dimension == "delivery_mode" then
      (["p." ++ dimension], f, ["p." ++ dimension ++ " IS NOT NULL"], ["p." ++ dimension])
    else if dimension == "name" then
      (["p.name"], f, [], ["p.program_id"])
    else ([], f, [], [])
  else if entity_type == "enrollments" then
    if dimension == "client" || dimension == "client_name" then
      (["c.name as client_name"],
       ["enrollments e", "JOIN clients c ON e.client_id = c.client_id"], [], ["e.client_id"])
    else if dimension == "program" || dimension == "program_name" then
      (["p.name as program_name"],
       ["enrollments e", "JOIN programs p ON e.program_id = p.program_id"], [], ["e.program_id"])
    else if dimension == "delivery_mode" then
      (["e.delivery_mode"], ["enrollments e"], ["e.delivery_mode IS NOT NULL"], ["e.delivery_mode"])
    else if dimension == "month" then
      (["strftime('%Y-%m', e.start_date) as month"], ["enrollments e"],
       ["e.start_date IS NOT NULL"], ["month"])
    else ([], ["enrollments e"], [], [])
  else if entity_type == "opportunities" then
    if dimension == "client" || dimension == "client_name" then
      (["c.name as client_name"],
       ["opportunities o", "JOIN clients c ON o.client_id = c.client_id"], [], ["o.client_id"])
    else if dimension == "program" || dimension == "program_name" then
      (["p.name as program_name"],
       ["opportunities o", "JOIN programs p ON o.program_id = p.program_id"], [], ["o.program_id"])
    else if dimension == "stage" then
      (["o.stage"], ["opportunities o"], [], ["o.stage"])
    else if dimension == "month" then
      (["strftime('%Y-%m', o.created_date) as month"], ["opportunities o"],
       ["o.created_date IS NOT NULL"], ["month"])
    else ([], ["opportunities o"], [], [])
  else ([], [], [], [])

/-- The metric section (lines 1164-1197): select expressions and ordering. -/
def metricParts (metric : String) : List String × List String :=
  if metric == "revenue" then
    (["SUM(e.revenue) as total_revenue"], ["total_revenue DESC"])
  else if metric == "profit" then
    (["SUM(e.revenue - (e.trainer_cost + e.logistics_cost + e.venue_cost + e.utilities_cost + e.materials_cost)) as total_profit"],
     ["total_profit DESC"])
  else if metric == "profit_margin" then
    (["SUM(e.revenue) as total_revenue",
      "SUM(e.revenue - (e.trainer_cost + e.logistics_cost + e.venue_cost + e.utilities_cost + e.materials_cost)) as total_profit",
      "CASE WHEN SUM(e.revenue) > 0 THEN (SUM(e.revenue - (e.trainer_cost + e.logistics_cost + e.venue_cost + e.utilities_cost + e.materials_cost)) / SUM(e.revenue)) * 100 ELSE 0 END as profit_margin"],
     ["profit_margin DESC"])
  else if metric == "enrollment_count" then
    (["COUNT(e.enrollment_id) as enrollment_count"], ["enrollment_count DESC"])
  else if metric == "client_count" then
    (["COUNT(DISTINCT c.client_id) as client_count"], ["client_count DESC"])
  else if metric == "program_count" then
    (["COUNT(DISTINCT p.program_id) as program_count"], ["program_count DESC"])
  else if metric == "opportunity_count" then
    (["COUNT(o.opportunity_id) as opportunity_count"], ["opportunity_count DESC"])
  else if metric == "win_rate" then
    (["COUNT(CASE WHEN o.stage = 'Closed Won' THEN 1 END) as won_count",
      "COUNT(CASE WHEN o.stage = 'Closed Lost' THEN 1 END) as lost_count",
      "COUNT(*) as total_count",
      "CASE WHEN COUNT(*) > 0 THEN (COUNT(CASE WHEN o.stage = 'Closed Won' THEN 1 END) * 100.0 / COUNT(*)) ELSE 0 END as win_rate"],
     ["win_rate DESC"])
  else if metric == "pipeline_value" then
    (["SUM(o.potential_revenue) as total_value",
      "SUM(o.potential_revenue * (o.probability / 100)) as weighted_value"],
     ["weighted_value DESC"])
  else ([], [])

/-- One iteration of the filters loop (lines 1200-1226): the `elif` chain
over the filter key; `and value` is Python truthiness on the string. -/
def filterClause (entity_type : String) (kv : String × String) : List String :=
  let k := kv.1
  let v := kv.2
  if k == "industry" && v != "" then ["c.industry = '" ++ v ++ "'"]
  else if k == "size" && v != "" then ["c.size = '" ++ v ++ "'"]
  else if k == "region" && v != "" then ["c.region = '" ++ v ++ "'"]
  else if k == "category" && v != "" then ["p.category = '" ++ v ++ "'"]
  else if k == "delivery_mode" && v != "" then
    (if entity_type == "programs" then ["p.delivery_mode = '" ++ v ++ "'"]
     else ["e.delivery_mode = '" ++ v ++ "'"])
  else if k == "stage" && v != "" then ["o.stage = '" ++ v ++ "'"]
  else if k == "date_from" && v != "" then
    (if entity_type == "enrollments" then ["e.start_date >= '" ++ v ++ "'"]
     else if entity_type == "opportunities" then ["o.created_date >= '" ++ v ++ "'"]
     else [])
  else if k == "date_to" && v != "" then
    (if entity_type == "enrollments" then ["e.start_date <= '" ++ v ++ "'"]
     else if entity_type == "opportunities" then ["o.created_date <= '" ++ v ++ "'"]
     else [])
  else []

/-- The full filters loop, in the mapping's iteration order. -/
def filterWheres (entity_type : String) (filters : List (String × String)) : List String :=
  (filters.map (filterClause entity_type)).flatten

/-- All five clause lists, assembled in source order (entity section, then
metric section, then the filters loop appending to the WHERE list). -/
def buildParts (entity_type metric dimension : String)
    (filters : List (String × String)) : QueryParts :=
  let e := entityParts entity_type metric dimension
  let m := metricParts metric
  { selects := e.1 ++ m.1
    froms := e.2.1
    wheres := e.2.2.1 ++ filterWheres entity_type filters
    groups := e.2.2.2
    orders := m.2 }

/-- Lines 1228-1237: concatenate the clause lists into the SQL text. -/
def renderQuery (parts : QueryParts) (limit : Nat) : String :=
  "SELECT " ++ String.intercalate ", " parts.selects
    ++ " FROM " ++ String.intercalate " " parts.froms
    ++ (if parts.wheres.isEmpty then "" else " WHERE " ++ String.intercalate " AND " parts.wheres)
    ++ (if parts.groups.isEmpty then "" else " GROUP BY " ++ String.intercalate ", " parts.groups)
    ++ (if parts.orders.isEmpty then "" else " ORDER BY " ++ String.intercalate ", " parts.orders)
    ++ " LIMIT " ++ toString limit

/-- The query text `create_custom_visualization` sends to the database.
`query_type` does not influence the SQL text (it only selects the chart
style afterwards), and no path of the construction raises an error. -/
def create_custom_query (query_type entity_type metric dimension : String)
    (filters : List (String × String)) (limit : Nat) : String :=
  let _ := query_type
  renderQuery (buildParts entity_type metric dimension filters) limit

/-! ### Semantics of the aggregate SQL expressions the builder emits
(visualization_generator.py lines 1165-1193), over one aggregated group of
rows.  Numeric values are rationals (SQL real arithmetic, exact here). -/

structure Enrollment where
  revenue : ℚ
  trainer_cost : ℚ
  logistics_cost : ℚ
  venue_cost : ℚ
  utilities_cost : ℚ
  materials_cost : ℚ
deriving Repr, DecidableEq

/-- `SUM(e.revenue)` over a group. -/
def totalRevenue (g : List Enrollment) : ℚ := (g.map Enrollment.revenue).sum

/-- `SUM(e.revenue - (e.trainer_cost + e.logistics_cost + e.venue_cost +
e.utilities_cost + e.materials_cost))` over a group. -/
def totalProfit (g : List Enrollment) : ℚ :=
  (g.map (fun e => e.revenue -
    (e.trainer_cost + e.logistics_cost + e.venue_cost + e.utilities_cost + e.materials_cost))).sum

/-- The `profit_margin` select expression (line 1174):
`CASE WHEN SUM(e.revenue) > 0 THEN (SUM(profit) / SUM(e.revenue)) * 100
ELSE 0 END`. -/
def profit_margin (g : List Enrollment) : ℚ :=
  if 0 < totalRevenue g then totalProfit g / totalRevenue g * 100 else 0

structure Opportunity where
  stage : String
deriving Repr, DecidableEq

/-- `COUNT(CASE WHEN o.stage = 'Closed Won' THEN 1 END)`. -/
def wonCount (g : List Opportunity) : Nat :=
  (g.filter (fun o => o.stage == "Closed Won")).length

/-- `COUNT(CASE WHEN o.stage = 'Closed Lost' THEN 1 END)` — computed by the
query but never used in its `win_rate` expression. -/
def lostCount (g : List Opportunity) : Nat :=
  (g.filter (fun o => o.stage == "Closed Lost")).length

/-- `COUNT(*)`: every opportunity of the group, open ones included. -/
def totalCount (g : List Opportunity) : Nat := g.length

/-- The `win_rate` select expression (line 1192): `CASE WHEN COUNT(*) > 0
THEN (won_count * 100.0 / COUNT(*)) ELSE 0 END`.  The denominator is
`COUNT(*)`, not the number of closed opportunities. -/
def win_rate (g : List Opportunity) : ℚ :=
  if 0 < totalCount g then (wonCount g : ℚ) * 100 / (totalCount g : ℚ) else 0

/-- Modelled from the spec (section 4.4 numeric semantics): the win rate the
specification describes, `won_count / total_closed_count × 100`, defined as
0 when `total_closed_count = 0`, where `total_closed_count` counts only the
closed (won or lost) opportunities.  Written from the spec's words to be
compared with `win_rate` above, which is translated from the code. -/
def win_rate_spec (g : List Opportunity) : ℚ :=
  if wonCount g + lostCount g = 0 then 0
  else (wonCount g : ℚ) * 100 / ((wonCount g + lostCount g : Nat) : ℚ)

/-! ### The template table and `match_template` / `process_prompt`
(prompt_analyzer.py lines 61-118, 325-360, 477-508).

Template dicts mix string fields with the integer `limit` that
`process_prompt` may add to its copy, so values are a small sum type.
`process_prompt` calls `template.copy()` before the limit override, so the
override writes to the copy and the stored table is threaded through
unchanged; the state-passing model below makes that explicit. -/

inductive FVal where
  | s : String → FVal
  | n : Nat → FVal
deriving Repr, DecidableEq

abbrev TDict := List (String × FVal)

def tdictInsert : TDict → String → FVal → TDict
  | [], k, v => [(k, v)]
  | (k', v') :: rest, k, v =>
    if k' == k then (k, v) :: rest else (k', v') :: tdictInsert rest k v

def tdictLookup : TDict → String → Option FVal
  | [], _ => none
  | (k', v') :: rest, k => if k' == k then some v' else tdictLookup rest k

def storeLookup : List (String × TDict) → String → TDict
  | [], _ => []
  | (k', t) :: rest, k => if k' == k then t else storeLookup rest k

/-- `self.templates` (lines 61-118). -/
def initTemplates : List (String × TDict) :=
  [("top_clients_by_revenue",
    [("query_type", .s "top"), ("entity_type", .s "clients"), ("metric", .s "revenue"),
     ("dimension", .s "client_name"), ("title", .s "Top Clients by Revenue"),
     ("description", .s "Shows the clients that have generated the most revenue")]),
   ("top_programs_by_revenue",
    [("query_type", .s "top"), ("entity_type", .s "programs"), ("metric", .s "revenue"),
     ("dimension", .s "program_name"), ("title", .s "Top Programs by Revenue"),
     ("description", .s "Shows the programs that have generated the most revenue")]),
   ("top_programs_by_profit_margin",
    [("query_type", .s "top"), ("entity_type", .s "programs"), ("metric", .s "profit_margin"),
     ("dimension", .s "program_name"), ("title", .s "Top Programs by Profit Margin"),
     ("description", .s "Shows the programs with the highest profit margins")]),
   ("revenue_by_industry",
    [("query_type", .s "distribution"), ("entity_type", .s "clients"), ("metric", .s "revenue"),
     ("dimension", .s "industry"), ("title", .s "Revenue Distribution by Industry"),
     ("description", .s "Shows how revenue is distributed across different client industries")]),
   ("revenue_trend_over_time",
    [("query_type", .s "trend"), ("entity_type", .s "enrollments"), ("metric", .s "revenue"),
     ("dimension", .s "month"), ("title", .s "Revenue Trend Over Time"),
     ("description", .s "Shows how revenue has changed over time")]),
   ("pipeline_by_stage",
    [("query_type", .s "distribution"), ("entity_type", .s "opportunities"),
     ("metric", .s "pipeline_value"), ("dimension", .s "stage"),
     ("title", .s "Pipeline Value by Stage"),
     ("description", .s "Shows the distribution of pipeline value across different stages")]),
   ("cost_breakdown",
    [("query_type", .s "distribution"), ("entity_type", .s "enrollments"), ("metric", .s "cost"),
     ("dimension", .s "cost_type"), ("title", .s "Cost Breakdown"),
     ("description", .s "Shows the breakdown of costs by category")])]

/-- `match_template` (lines 325-360): the `if` chain over the lowered
prompt, returning the key of the template whose rule fires first. -/
def match_template (prompt : String) : Option String :=
  let pl := lower prompt
  if containsStr pl "top client" && containsStr pl "revenue" then
    some "top_clients_by_revenue"
  else if containsStr pl "top program" && containsStr pl "revenue" then
    some "top_programs_by_revenue"
  else if (containsStr pl "top program" || containsStr pl "best program") &&
      (containsStr pl "profit margin" || containsStr pl "profitability") then
    some "top_programs_by_profit_margin"
  else if containsStr pl "revenue" && containsStr pl "industry" then
    some "revenue_by_industry"
  else if (containsStr pl "revenue" || containsStr pl "sales") &&
      (containsStr pl "trend" || containsStr pl "over time") then
    some "revenue_trend_over_time"
  else if (containsStr pl "pipeline" || containsStr pl "opportunity") &&
      containsStr pl "stage" then
    some "pipeline_by_stage"
  else if containsStr pl "cost" && (containsStr pl "breakdown" || containsStr pl "distribution") then
    some "cost_breakdown"
  else none

/-- The same rules as an ordered priority list, for stating that the first
matching rule wins. -/
def templateRules : List ((String → Bool) × String) :=
  [(fun pl => containsStr pl "top client" && containsStr pl "revenue",
    "top_clients_by_revenue"),
   (fun pl => containsStr pl "top program" && containsStr pl "revenue",
    "top_programs_by_revenue"),
   (fun pl => (containsStr pl "top program" || containsStr pl "best program") &&
      (containsStr pl "profit margin" || containsStr pl "profitability"),
    "top_programs_by_profit_margin"),
   (fun pl => containsStr pl "revenue" && containsStr pl "industry",
    "revenue_by_industry"),
   (fun pl => (containsStr pl "revenue" || containsStr pl "sales") &&
      (containsStr pl "trend" || containsStr pl "over time"),
    "revenue_trend_over_time"),
   (fun pl => (containsStr pl "pipeline" || containsStr pl "opportunity") &&
      containsStr pl "stage",
    "pipeline_by_stage"),
   (fun pl => containsStr pl "cost" && (containsStr pl "breakdown" || containsStr pl "distribution"),
    "cost_breakdown")]

/-- The resolver's parameter dict rendered at the dict level, for the
branch of `process_prompt` that falls through to `analyze_prompt`. -/
def paramsToTDict (p : Params) : TDict :=
  [("query_type", .s p.query_type), ("entity_type", .s p.entity_type),
   ("metric", .s p.metric), ("dimension", .s p.dimension), ("limit", .n p.limit)]
  ++ p.filters.map (fun kv => ("filters." ++ kv.1, FVal.s kv.2))

/-- The parameter-building part of `process_prompt` (lines 487-501), with
the analyzer's template table threaded as explicit state.  On a template
match the source takes `template.copy()` and applies the limit override to
the copy (`if limit:` truthiness as in `analyze_prompt`), so the store
component is returned unchanged; had the source mutated the shared
template, the updated dict would have to be written back into the store
here. -/
def process_prompt_params (st : List (String × TDict)) (prompt : String) :
    TDict × List (String × TDict) :=
  match match_template prompt with
  | some k =>
    let params := storeLookup st k
    let params :=
      match extract_number prompt with
      | some n => if n ≠ 0 then tdictInsert params "limit" (.n n) else params
      | none => params
    (params, st)
  | none => (paramsToTDict (analyze_prompt prompt), st)

/-! ## Helper lemmas -/

theorem countUpdate_entity (p : Params) : (countUpdate p).entity_type = p.entity_type := by
  unfold countUpdate; split_ifs <;> rfl

theorem metricPass_entity (pl : String) (p : Params) :
    (metricPass pl p).entity_type = p.entity_type := by
  unfold metricPass
  split_ifs <;> simp_all [countUpdate_entity]

theorem dimensionPass_entity (pl : String) (p : Params) :
    (dimensionPass pl p).entity_type = p.entity_type := by
  unfold dimensionPass; split_ifs <;> rfl

theorem queryTypePass_entity (pl : String) (p : Params) :
    (queryTypePass pl p).entity_type = p.entity_type := by
  unfold queryTypePass; split_ifs <;> rfl

theorem timeStep_entity (b : Bool) (v1 v2 : String) (p : Params) :
    (timeStep b v1 v2 p).entity_type = p.entity_type := by
  unfold timeStep; split_ifs <;> rfl

theorem timePeriodPass_entity (pl : String) (p : Params) :
    (timePeriodPass pl p).entity_type = p.entity_type := by
  unfold timePeriodPass; simp only [timeStep_entity]

theorem filterStep_entity (text name : String) (seps : List String) (key : String)
    (p : Params) : (filterStep text name seps key p).entity_type = p.entity_type := by
  unfold filterStep; cases filterCapture text name seps <;> rfl

theorem filterPass_entity (text : String) (p : Params) :
    (filterPass text p).entity_type = p.entity_type := by
  unfold filterPass; simp only [filterStep_entity]

theorem countUpdate_limit (p : Params) : (countUpdate p).limit = p.limit := by
  unfold countUpdate; split_ifs <;> rfl

theorem entityPass_limit (pl : String) (p : Params) : (entityPass pl p).limit = p.limit := by
  unfold entityPass; split_ifs <;> rfl

theorem metricPass_limit (pl : String) (p : Params) : (metricPass pl p).limit = p.limit := by
  unfold metricPass
  split_ifs <;> simp_all [countUpdate_limit]

theorem dimensionPass_limit (pl : String) (p : Params) :
    (dimensionPass pl p).limit = p.limit := by
  unfold dimensionPass; split_ifs <;> rfl

theorem queryTypePass_limit (pl : String) (p : Params) :
    (queryTypePass pl p).limit = p.limit := by
  unfold queryTypePass; split_ifs <;> rfl

theorem timeStep_limit (b : Bool) (v1 v2 : String) (p : Params) :
    (timeStep b v1 v2 p).limit = p.limit := by
  unfold timeStep; split_ifs <;> rfl

theorem timePeriodPass_limit (pl : String) (p : Params) :
    (timePeriodPass pl p).limit = p.limit := by
  unfold timePeriodPass; simp only [timeStep_limit]

theorem filterStep_limit (text name : String) (seps : List String) (key : String)
    (p : Params) : (filterStep text name seps key p).limit = p.limit := by
  unfold filterStep; cases filterCapture text name seps <;> rfl

theorem filterPass_limit (text : String) (p : Params) :
    (filterPass text p).limit = p.limit := by
  unfold filterPass; simp only [filterStep_limit]

/-- No aspect of the prompt is resolvable: no number, no keyword of any
lexicon category, no explicit filter match. -/
def noSignal (prompt : String) : Bool :=
  let pl := lower prompt
  (extract_number prompt).isNone
  && !(anyKw clientKws pl) && !(anyKw programKws pl)
  && !(anyKw enrollmentKws pl) && !(anyKw opportunityKws pl)
  && !(anyKw revenueKws pl) && !(anyKw profitKws pl) && !(anyKw costKws pl)
  && !(anyKw countKws pl) && !(anyKw trendKws pl)
  && !(anyKw industryKws pl) && !(anyKw regionKws pl) && !(anyKw sizeKws pl)
  && !(anyKw categoryKws pl) && !(anyKw deliveryModeKws pl) && !(anyKw timeKws pl)
  && !(anyKw topKws pl) && !(anyKw bottomKws pl) && !(anyKw averageKws pl)
  && !(anyKw comparisonKws pl) && !(anyKw distributionKws pl)
  && !(anyKw thisMonthKws pl) && !(anyKw lastMonthKws pl)
  && !(anyKw thisQuarterKws pl) && !(anyKw lastQuarterKws pl)
  && !(anyKw thisYearKws pl) && !(anyKw lastYearKws pl)
  && (filterCapture prompt "industry" stdSeps).isNone
  && (filterCapture prompt "region" stdSeps).isNone
  && (filterCapture prompt "size" stdSeps).isNone
  && (filterCapture prompt "category" stdSeps).isNone
  && (filterCapture prompt "delivery" deliverySeps).isNone
  && (filterCapture prompt "stage" stdSeps).isNone

/-- C3: for every prompt the resolver returns `limit ≥ 1` (an extracted 0
or a missing number falls back to the default 5), and a prompt in which
nothing matches resolves to exactly the default parameter set; all fields
of the result are total by construction of `Params`. -/
theorem analyze_prompt_total_default (prompt : String) :
    1 ≤ (analyze_prompt prompt).limit ∧
    (noSignal prompt = true → analyze_prompt prompt = defaultParams) := by
  constructor
  · show 1 ≤ (analyze_prompt prompt).limit
    unfold analyze_prompt
    rw [filterPass_limit, timePeriodPass_limit, queryTypePass_limit, dimensionPass_limit,
      metricPass_limit, entityPass_limit]
    unfold limitStep
    cases h : extract_number prompt with
    | none => decide
    | some n =>
      by_cases hn : n = 0
      · simp [hn, defaultParams]
      · simp [hn, Nat.one_le_iff_ne_zero.mpr hn]
  · intro h
    unfold noSignal at h
    simp only [Bool.and_eq_true, Bool.not_eq_true', Option.isNone_iff_eq_none,
      and_assoc] at h
    obtain ⟨hnum, h1, h2, h3, h4, h5, h6, h7, h8, h9, h10, h11, h12, h13, h14, h15,
      h16, h17, h18, h19, h20, h21, h22, h23, h24, h25, h26, f1, f2, f3, f4, f5, f6⟩ := h
    simp [analyze_prompt, limitStep, entityPass, metricPass, dimensionPass,
      queryTypePass, timePeriodPass, timeStep, filterPass, filterStep, hnum,
      h1, h2, h3, h4, h5, h6, h7, h8, h9, h10, h11, h12, h13, h14, h15,
      h16, h17, h18, h19, h20, h21, h22, h23, h24, h25, h26, f1, f2, f3, f4, f5, f6]

/-- Witness for C3 at the empty prompt: nothing matches, defaults apply. -/
theorem analyze_prompt_total_default_witness :
    noSignal "" = true ∧ analyze_prompt "" = defaultParams :=
  ⟨by decide, (analyze_prompt_total_default "").2 (by decide)⟩

/-- C2 counterexample: the prompt "client program" contains keywords of the
`client` category (iterated first) and of the `program` category (iterated
second); the claim says the first matching category (client → clients /
client_name) takes effect and scanning stops, but the source's `break`
only leaves the inner keyword loop, so the later `program` category
overwrites the earlier one. -/
theorem entity_scan_counterexample :
    containsStr (lower "client program") "client" = true ∧
    containsStr (lower "client program") "program" = true ∧
    (analyze_prompt "client program").entity_type = "programs" ∧
    (analyze_prompt "client program").dimension = "program_name" := by
  refine ⟨by decide, by decide, ?_, ?_⟩ <;> decide

/-- C2 (amended): each lexicon pass scans **all** categories in iteration
order (per category only the first keyword is consulted), applying every
matching category's update in turn, so with several matching categories the
**last** one in iteration order wins; here: any prompt matching both the
client and the program categories (and neither of the later entity
categories) resolves to entity_type `programs` with default dimension
`program_name`. -/
theorem entity_scan_last_match (prompt : String)
    (hc : anyKw clientKws (lower prompt) = true)
    (hp : anyKw programKws (lower prompt) = true)
    (he : anyKw enrollmentKws (lower prompt) = false)
    (ho : anyKw opportunityKws (lower prompt) = false) :
    (analyze_prompt prompt).entity_type = "programs" ∧
    (entityPass (lower prompt) (limitStep prompt defaultParams)).dimension = "program_name" := by
  constructor
  · unfold analyze_prompt
    rw [filterPass_entity, timePeriodPass_entity, queryTypePass_entity,
      dimensionPass_entity, metricPass_entity]
    simp [entityPass, hc, hp, he, ho]
  · simp [entityPass, hc, hp, he, ho]

/-- Witness for the amended C2 at the prompt "client program". -/
theorem entity_scan_last_match_witness :
    anyKw clientKws (lower "client program") = true ∧
    (analyze_prompt "client program").entity_type = "programs" :=
  ⟨by decide,
   (entity_scan_last_match "client program" (by decide) (by decide) (by decide)
     (by decide)).1⟩

/-- C4: on "show revenue trend by industry" the metric pass (trend
category) sets query_type = trend and dimension = month, and the later
dimension pass overrides dimension to industry while query_type stays
trend, which is what the full resolver returns. -/
theorem trend_by_industry_override :
    (metricPass (lower "show revenue trend by industry")
      (entityPass (lower "show revenue trend by industry")
        (limitStep "show revenue trend by industry" defaultParams))).query_type = "trend" ∧
    (metricPass (lower "show revenue trend by industry")
      (entityPass (lower "show revenue trend by industry")
        (limitStep "show revenue trend by industry" defaultParams))).dimension = "month" ∧
    (dimensionPass (lower "show revenue trend by industry")
      (metricPass (lower "show revenue trend by industry")
        (entityPass (lower "show revenue trend by industry")
          (limitStep "show revenue trend by industry" defaultParams)))).dimension = "industry" ∧
    (dimensionPass (lower "show revenue trend by industry")
      (metricPass (lower "show revenue trend by industry")
        (entityPass (lower "show revenue trend by industry")
          (limitStep "show revenue trend by industry" defaultParams)))).query_type = "trend" ∧
    (analyze_prompt "show revenue trend by industry").dimension = "industry" ∧
    (analyze_prompt "show revenue trend by industry").query_type = "trend" := by
  refine ⟨?_, ?_, ?_, ?_, ?_, ?_⟩ <;> decide

/-- C6: `match_template` checks its rules in the fixed priority order of
`templateRules` and returns the first matching rule's template; in
particular "Show me the top client by revenue" matches
`top_clients_by_revenue`, so `process_prompt` takes the template path and
the parameters it forwards carry dimension `client_name`. -/
theorem match_template_first_rule :
    (∀ p : String, match_template p =
      (templateRules.find? (fun r => r.1 (lower p))).map (fun r => r.2)) ∧
    match_template "Show me the top client by revenue" = some "top_clients_by_revenue" ∧
    tdictLookup (process_prompt_params initTemplates "Show me the top client by revenue").1
      "dimension" = some (.s "client_name") := by
  refine ⟨?_, by decide, by decide⟩
  intro p
  unfold match_template templateRules
  simp only [List.find?]
  repeat' split <;> try simp_all

/-- C7: the template path of `process_prompt` copies the matched template
before the limit override, so the stored template table is never changed by
processing a prompt; concretely, processing "top client revenue 10" yields
parameters with limit 10 while the stored `top_clients_by_revenue`
template still carries no limit field. -/
theorem process_prompt_preserves_templates :
    (∀ (st : List (String × TDict)) (prompt : String),
      (process_prompt_params st prompt).2 = st) ∧
    tdictLookup (process_prompt_params initTemplates "top client revenue 10").1 "limit" =
      some (.n 10) ∧
    tdictLookup (storeLookup initTemplates "top_clients_by_revenue") "limit" = none := by
  refine ⟨?_, by decide, by decide⟩
  intro st prompt
  unfold process_prompt_params
  cases hmt : match_template prompt with
  | none => rfl
  | some k => rfl

/-- C5 counterexample: a group with one won and one still-open opportunity.
The claim (and spec §4.4) says win_rate = won_count / total_closed_count ×
100 = 1/1 × 100 = 100, but the emitted SQL divides by `COUNT(*)` — every
opportunity of the group — giving 50. -/
theorem win_rate_counterexample :
    win_rate [Opportunity.mk "Closed Won", Opportunity.mk "Proposal"] = 50 ∧
    win_rate_spec [Opportunity.mk "Closed Won", Opportunity.mk "Proposal"] = 100 ∧
    win_rate [Opportunity.mk "Closed Won", Opportunity.mk "Proposal"] ≠
      win_rate_spec [Opportunity.mk "Closed Won", Opportunity.mk "Proposal"] := by
  have hw : wonCount [Opportunity.mk "Closed Won", Opportunity.mk "Proposal"] = 1 := by decide
  have hl : lostCount [Opportunity.mk "Closed Won", Opportunity.mk "Proposal"] = 0 := by decide
  have ht : totalCount [Opportunity.mk "Closed Won", Opportunity.mk "Proposal"] = 2 := by decide
  refine ⟨?_, ?_, ?_⟩
  · rw [win_rate, hw, ht]; norm_num
  · rw [win_rate_spec, hw, hl]; norm_num
  · rw [win_rate, win_rate_spec, hw, hl, ht]; norm_num

/-- C5 (amended): profit_margin is profit/revenue × 100, 0 when revenue ≤ 0
(never a division by zero), exactly as claimed; win_rate is
won_count/total_count × 100 where total_count is `COUNT(*)` — all
opportunities of the group, open ones included, not only the closed ones —
and 0 when the group is empty. -/
theorem aggregate_guards (g : List Enrollment) (og : List Opportunity) :
    (totalRevenue g ≤ 0 → profit_margin g = 0) ∧
    (0 < totalRevenue g → profit_margin g = totalProfit g / totalRevenue g * 100) ∧
    (totalCount og = 0 → win_rate og = 0) ∧
    (0 < totalCount og →
      win_rate og = (wonCount og : ℚ) * 100 / (totalCount og : ℚ)) := by
  refine ⟨fun h => ?_, fun h => ?_, fun h => ?_, fun h => ?_⟩
  · rw [profit_margin, if_neg (not_lt.mpr h)]
  · rw [profit_margin, if_pos h]
  · rw [win_rate, h]; simp
  · rw [win_rate, if_pos h]

/-- Witness for the amended C5: the empty enrollment group (revenue 0) has
margin 0; a one-element all-won group has win rate 100·1/1. -/
theorem aggregate_guards_witness :
    profit_margin ([] : List Enrollment) = 0 ∧
    win_rate [Opportunity.mk "Closed Won"] =
      (wonCount [Opportunity.mk "Closed Won"] : ℚ) * 100 /
        (totalCount [Opportunity.mk "Closed Won"] : ℚ) :=
  ⟨(aggregate_guards [] []).1 (by norm_num [totalRevenue]),
   (aggregate_guards [] [Opportunity.mk "Closed Won"]).2.2.2 (by decide)⟩

/-- C1 counterexample: compiling entity_type = clients with metric =
win_rate raises nothing — no `UnsupportedCombination` exists anywhere in
the source — and instead silently yields this query, which references the
alias `o.stage` although its FROM clause joins no opportunities table
(so it is a wrong query that can only fail later, at execution). -/
theorem compile_no_validation_counterexample :
    create_custom_query "top" "clients" "win_rate" "industry" [] 10 =
      "SELECT c.industry, COUNT(CASE WHEN o.stage = 'Closed Won' THEN 1 END) as won_count, COUNT(CASE WHEN o.stage = 'Closed Lost' THEN 1 END) as lost_count, COUNT(*) as total_count, CASE WHEN COUNT(*) > 0 THEN (COUNT(CASE WHEN o.stage = 'Closed Won' THEN 1 END) * 100.0 / COUNT(*)) ELSE 0 END as win_rate FROM clients c WHERE c.industry IS NOT NULL GROUP BY c.industry ORDER BY win_rate DESC LIMIT 10" ∧
    containsStr (create_custom_query "top" "clients" "win_rate" "industry" [] 10)
      "o.stage" = true ∧
    containsStr (create_custom_query "top" "clients" "win_rate" "industry" [] 10)
      "opportunities" = false ∧
    (buildParts "clients" "win_rate" "industry" []).froms = ["clients c"] := by
  refine ⟨by decide, by decide, by decide, by decide⟩

/-- C1 (amended): the query builder performs no validation of the
dimension/metric against the entity type and has no error outcome at all:
an unsupported metric is emitted referencing an unjoined table alias (the
clients + win_rate query above), and an unsupported dimension is silently
dropped — for entity_type clients, any dimension other than industry, size
and region contributes no grouping, select column or where clause. -/
theorem compile_no_validation (d : String)
    (h1 : d ≠ "industry") (h2 : d ≠ "size") (h3 : d ≠ "region") :
    (buildParts "clients" "win_rate" d []).groups = [] ∧
    (buildParts "clients" "win_rate" d []).wheres = [] ∧
    (buildParts "clients" "win_rate" d []).froms = ["clients c"] ∧
    create_custom_query "top" "clients" "win_rate" "industry" [] 10 =
      "SELECT c.industry, COUNT(CASE WHEN o.stage = 'Closed Won' THEN 1 END) as won_count, COUNT(CASE WHEN o.stage = 'Closed Lost' THEN 1 END) as lost_count, COUNT(*) as total_count, CASE WHEN COUNT(*) > 0 THEN (COUNT(CASE WHEN o.stage = 'Closed Won' THEN 1 END) * 100.0 / COUNT(*)) ELSE 0 END as win_rate FROM clients c WHERE c.industry IS NOT NULL GROUP BY c.industry ORDER BY win_rate DESC LIMIT 10" := by
  have hb : ((d == "industry") || (d == "size") || (d == "region")) = false := by
    simp [h1, h2, h3]
  refine ⟨?_, ?_, ?_, by decide⟩ <;>
    simp [buildParts, entityParts, metricParts, filterWheres, hb, h1, h2, h3]

/-- Witness for the amended C1 at the (invalid for clients) dimension
`stage`. -/
theorem compile_no_validation_witness :
    (buildParts "clients" "win_rate" "stage" []).groups = [] :=
  (compile_no_validation "stage" (by decide) (by decide) (by decide)).1

def isDateKey (k : String) : Bool := k == "date_from" || k == "date_to"

theorem filterClause_dropDate (et : String) (het : et = "clients" ∨ et = "programs")
    (kv : String × String) (hk : isDateKey kv.1 = true) : filterClause et kv = [] := by
  obtain ⟨k, v⟩ := kv
  simp only [isDateKey, Bool.or_eq_true, beq_iff_eq] at hk
  rcases het with het | het <;> rcases hk with hk | hk <;> subst het <;> subst hk <;>
    simp [filterClause]

theorem filterWheres_cons (et : String) (kv : String × String) (t : List (String × String)) :
    filterWheres et (kv :: t) = filterClause et kv ++ filterWheres et t := rfl

theorem filterWheres_dropDate (et : String) (het : et = "clients" ∨ et = "programs")
    (fs : List (String × String)) :
    filterWheres et fs = filterWheres et (fs.filter (fun kv => !(isDateKey kv.1))) := by
  induction fs with
  | nil => rfl
  | cons hd t ih =>
    cases hk : isDateKey hd.1 with
    | true =>
      rw [filterWheres_cons, filterClause_dropDate et het hd hk]
      simpa [List.filter, hk] using ih
    | false =>
      simp only [filterWheres_cons, List.filter, hk, Bool.not_false]
      rw [ih]

/-- C9: for entity types clients and programs the `date_from` / `date_to`
filters are silently dropped — the built query is the same as with the
date keys removed, so it contains no date condition at all — while for
enrollments the date predicates land on `e.start_date` and for
opportunities on `o.created_date`. -/
theorem date_filters_entity_scope (fs : List (String × String)) :
    (∀ qt et m d l, (et = "clients" ∨ et = "programs") →
      create_custom_query qt et m d fs l =
        create_custom_query qt et m d (fs.filter (fun kv => !(isDateKey kv.1))) l) ∧
    (∀ v : String, v ≠ "" →
      (("date_from", v) ∈ fs →
        ("e.start_date >= '" ++ v ++ "'") ∈ filterWheres "enrollments" fs ∧
        ("o.created_date >= '" ++ v ++ "'") ∈ filterWheres "opportunities" fs) ∧
      (("date_to", v) ∈ fs →
        ("e.start_date <= '" ++ v ++ "'") ∈ filterWheres "enrollments" fs ∧
        ("o.created_date <= '" ++ v ++ "'") ∈ filterWheres "opportunities" fs)) := by
  constructor
  · intro qt et m d l het
    have hfw := filterWheres_dropDate et het fs
    simp [create_custom_query, renderQuery, buildParts, hfw]
  · intro v hv
    have hv' : (v != "") = true := by simpa [bne_iff_ne] using hv
    constructor
    · intro hmem
      induction fs with
      | nil => simp at hmem
      | cons hd t ih =>
        rcases List.mem_cons.mp hmem with h | h
        · subst h
          constructor <;> simp [filterWheres_cons, filterClause, hv']
        · have := ih h
          constructor <;> · rw [filterWheres_cons]
                            exact List.mem_append_right _ (by tauto)
    · intro hmem
      induction fs with
      | nil => simp at hmem
      | cons hd t ih =>
        rcases List.mem_cons.mp hmem with h | h
        · subst h
          constructor <;> simp [filterWheres_cons, filterClause, hv']
        · have := ih h
          constructor <;> · rw [filterWheres_cons]
                            exact List.mem_append_right _ (by tauto)

/-- Witness for C9: one date_from filter is dropped for clients and lands
on `e.start_date` for enrollments. -/
theorem date_filters_entity_scope_witness :
    create_custom_query "top" "clients" "revenue" "industry"
        [("date_from", "2024-01-01")] 5 =
      create_custom_query "top" "clients" "revenue" "industry"
        ([("date_from", "2024-01-01")].filter (fun kv => !(isDateKey kv.1))) 5 ∧
    ("e.start_date >= '" ++ "2024-01-01" ++ "'") ∈
      filterWheres "enrollments" [("date_from", "2024-01-01")] :=
  ⟨(date_filters_entity_scope [("date_from", "2024-01-01")]).1 "top" "clients"
      "revenue" "industry" 5 (Or.inl rfl),
   (((date_filters_entity_scope [("date_from", "2024-01-01")]).2 "2024-01-01"
      (by decide)).1 (by simp)).1⟩

/-! ### The spec's version of the filter regex, for claim C8.

Modelled from the spec: §4.1 gives `extract_filter(text, filter_name)` as
the case-insensitive regex `<filter_name>\s*(?:is|=|:)\s*([a-zA-Z\s]+)`
with the capture trimmed — `\s*` (zero or more) around the separator,
and the same three separator alternatives for every filter name
(`delivery mode` being one of the names).  Same Python `re.search`
semantics as `searchFilter` above, with the whitespace made optional. -/

def matchTailSpec (l : List Char) : Option (List Char) :=
  let w := l.takeWhile isSpaceChar
  let q := l.drop w.length
  match q.head? with
  | some c =>
    if isAsciiLetter c then some (q.takeWhile isFilterClass)
    else
      match w.reverse with
      | c' :: _ => some [c']
      | [] => none
  | none =>
    match w.reverse with
    | c' :: _ => some [c']
    | [] => none

def trySepsSpec : List (List Char) → List Char → Option (List Char)
  | [], _ => none
  | s :: ss, r =>
    match matchLit s r with
    | some r' =>
      match matchTailSpec r' with
      | some cap => some cap
      | none => trySepsSpec ss r
    | none => trySepsSpec ss r

def matchFilterAtSpec (name : List Char) (seps : List (List Char)) (l : List Char) :
    Option (List Char) :=
  match matchLit name l with
  | none => none
  | some r1 => trySepsSpec seps (r1.drop (r1.takeWhile isSpaceChar).length)

def searchFilterSpec (name : List Char) (seps : List (List Char)) :
    List Char → Option (List Char)
  | [] => matchFilterAtSpec name seps []
  | l@(_ :: t) =>
    match matchFilterAtSpec name seps l with
    | some cap => some cap
    | none => searchFilterSpec name seps t

/-- Modelled from the spec: `extract_filter` as §4.1 describes it. -/
def spec_extract_filter (text name : String) : Option String :=
  (searchFilterSpec name.data (stdSeps.map String.data) text.data).map
    (fun cap => ⟨stripList cap⟩)

/-! ### Dict lookup lemmas and filter-tracking through the passes -/

theorem dictLookup_insert_self (fs : List (String × String)) (k v : String) :
    dictLookup (dictInsert fs k v) k = some v := by
  induction fs with
  | nil => simp [dictInsert, dictLookup]
  | cons hd t ih =>
    obtain ⟨k', v'⟩ := hd
    by_cases h : k' = k
    · subst h; simp [dictInsert, dictLookup]
    · have hb : (k' == k) = false := by simp [h]
      simp [dictInsert, dictLookup, hb, ih]

theorem dictLookup_insert_ne (fs : List (String × String)) (k k' v : String)
    (h : k' ≠ k) : dictLookup (dictInsert fs k' v) k = dictLookup fs k := by
  induction fs with
  | nil => simp [dictInsert, dictLookup, h]
  | cons hd t ih =>
    obtain ⟨k'', v''⟩ := hd
    by_cases h2 : k'' = k'
    · subst h2
      have hb : (k'' == k) = false := by simp [h]
      simp [dictInsert, dictLookup, hb]
    · have hb : (k'' == k') = false := by simp [h2]
      by_cases h3 : k'' = k
      · subst h3; simp [dictInsert, dictLookup, hb]
      · have hb3 : (k'' == k) = false := by simp [h3]
        simp [dictInsert, dictLookup, hb, hb3, ih]

theorem countUpdate_filters (p : Params) : (countUpdate p).filters = p.filters := by
  unfold countUpdate; split_ifs <;> rfl

theorem limitStep_filters (prompt : String) (p : Params) :
    (limitStep prompt p).filters = p.filters := by
  unfold limitStep; cases extract_number prompt with
  | none => rfl
  | some n => dsimp only; split <;> rfl

theorem entityPass_filters (pl : String) (p : Params) :
    (entityPass pl p).filters = p.filters := by
  unfold entityPass; split_ifs <;> rfl

theorem metricPass_filters (pl : String) (p : Params) :
    (metricPass pl p).filters = p.filters := by
  unfold metricPass; split_ifs <;> simp_all [countUpdate_filters]

theorem dimensionPass_filters (pl : String) (p : Params) :
    (dimensionPass pl p).filters = p.filters := by
  unfold dimensionPass; split_ifs <;> rfl

theorem queryTypePass_filters (pl : String) (p : Params) :
    (queryTypePass pl p).filters = p.filters := by
  unfold queryTypePass; split_ifs <;> rfl

theorem timeStep_lookup_ne (b : Bool) (v1 v2 : String) (p : Params) (k : String)
    (h1 : k ≠ "date_from") (h2 : k ≠ "date_to") :
    dictLookup (timeStep b v1 v2 p).filters k = dictLookup p.filters k := by
  unfold timeStep
  cases b
  · rfl
  · simp only [if_true]
    rw [dictLookup_insert_ne _ _ _ _ (Ne.symm h2), dictLookup_insert_ne _ _ _ _ (Ne.symm h1)]

theorem timePeriodPass_lookup_ne (pl : String) (p : Params) (k : String)
    (h1 : k ≠ "date_from") (h2 : k ≠ "date_to") :
    dictLookup (timePeriodPass pl p).filters k = dictLookup p.filters k := by
  unfold timePeriodPass
  rw [timeStep_lookup_ne _ _ _ _ _ h1 h2, timeStep_lookup_ne _ _ _ _ _ h1 h2,
    timeStep_lookup_ne _ _ _ _ _ h1 h2, timeStep_lookup_ne _ _ _ _ _ h1 h2,
    timeStep_lookup_ne _ _ _ _ _ h1 h2, timeStep_lookup_ne _ _ _ _ _ h1 h2]

theorem filterStep_lookup_ne (text name : String) (seps : List String)
    (key k : String) (p : Params) (h : key ≠ k) :
    dictLookup (filterStep text name seps key p).filters k = dictLookup p.filters k := by
  unfold filterStep
  cases filterCapture text name seps with
  | none => rfl
  | some v => exact dictLookup_insert_ne _ _ _ _ h

theorem filterStep_lookup_self (text name : String) (seps : List String)
    (key : String) (p : Params) (h : dictLookup p.filters key = none) :
    dictLookup (filterStep text name seps key p).filters key =
      filterCapture text name seps := by
  unfold filterStep
  cases hc : filterCapture text name seps with
  | none => exact h
  | some v => exact dictLookup_insert_self _ _ _

/-- Lookup of a non-date key in the filters right before the filter pass
runs: nothing has inserted it, so it is `none`. -/
theorem preFilter_lookup_none (text k : String)
    (h1 : k ≠ "date_from") (h2 : k ≠ "date_to") :
    dictLookup (timePeriodPass (lower text)
      (queryTypePass (lower text)
        (dimensionPass (lower text)
          (metricPass (lower text)
            (entityPass (lower text)
              (limitStep text defaultParams)))))).filters k = none := by
  rw [timePeriodPass_lookup_ne _ _ _ h1 h2, queryTypePass_filters, dimensionPass_filters,
    metricPass_filters, entityPass_filters, limitStep_filters]
  rfl

/-- C8 counterexample: the source patterns use `\s+` (at least one
whitespace) around the separator — not the spec's `\s*` — so
"industry:Healthcare" extracts nothing in the code while the spec regex
captures "Healthcare"; and the delivery-mode pattern is
`delivery\s+(?:mode|is|=|:)\s+…`, so "delivery mode: online" extracts
nothing in the code while the spec's `delivery mode\s*(?:is|=|:)\s*…`
captures "online". -/
theorem extract_filter_counterexample :
    filterCapture "industry:Healthcare" "industry" stdSeps = none ∧
    spec_extract_filter "industry:Healthcare" "industry" = some "Healthcare" ∧
    (analyze_prompt "industry:Healthcare").filters = [] ∧
    filterCapture "delivery mode: online" "delivery" deliverySeps = none ∧
    spec_extract_filter "delivery mode: online" "delivery mode" = some "online" := by
  refine ⟨by decide, by decide, by decide, by decide, by decide⟩

/-- C8 (amended): for each of the six filter keys, the value
`analyze_prompt` stores is the trimmed capture of the case-insensitive
source regex `<name>\s+(?:is|=|:)\s+([a-zA-Z\s]+)` (with `\s+`, not the
spec's `\s*`) — for delivery mode the pattern is
`delivery\s+(?:mode|is|=|:)\s+([a-zA-Z\s]+)` — and none when there is no
match; in particular extract_filter("industry is Healthcare", "industry")
= "Healthcare". -/
theorem extract_filter_semantics (text : String) :
    dictLookup (analyze_prompt text).filters "industry" =
      filterCapture text "industry" stdSeps ∧
    dictLookup (analyze_prompt text).filters "region" =
      filterCapture text "region" stdSeps ∧
    dictLookup (analyze_prompt text).filters "size" =
      filterCapture text "size" stdSeps ∧
    dictLookup (analyze_prompt text).filters "category" =
      filterCapture text "category" stdSeps ∧
    dictLookup (analyze_prompt text).filters "delivery_mode" =
      filterCapture text "delivery" deliverySeps ∧
    dictLookup (analyze_prompt text).filters "stage" =
      filterCapture text "stage" stdSeps ∧
    filterCapture "industry is Healthcare" "industry" stdSeps = some "Healthcare" := by
  refine ⟨?_, ?_, ?_, ?_, ?_, ?_, by decide⟩ <;>
    · unfold analyze_prompt filterPass
      first
      | rw [filterStep_lookup_ne _ _ _ _ _ _ (by decide),
          filterStep_lookup_ne _ _ _ _ _ _ (by decide),
          filterStep_lookup_ne _ _ _ _ _ _ (by decide),
          filterStep_lookup_ne _ _ _ _ _ _ (by decide),
          filterStep_lookup_ne _ _ _ _ _ _ (by decide),
          filterStep_lookup_self _ _ _ _ _ (preFilter_lookup_none text _ (by decide) (by decide))]
      | rw [filterStep_lookup_ne _ _ _ _ _ _ (by decide),
          filterStep_lookup_ne _ _ _ _ _ _ (by decide),
          filterStep_lookup_ne _ _ _ _ _ _ (by decide),
          filterStep_lookup_ne _ _ _ _ _ _ (by decide),
          filterStep_lookup_self _ _ _ _ _ (by
            rw [filterStep_lookup_ne _ _ _ _ _ _ (by decide)]
            exact preFilter_lookup_none text _ (by decide) (by decide))]
      | rw [filterStep_lookup_ne _ _ _ _ _ _ (by decide),
          filterStep_lookup_ne _ _ _ _ _ _ (by decide),
          filterStep_lookup_ne _ _ _ _ _ _ (by decide),
          filterStep_lookup_self _ _ _ _ _ (by
            rw [filterStep_lookup_ne _ _ _ _ _ _ (by decide),
              filterStep_lookup_ne _ _ _ _ _ _ (by decide)]
            exact preFilter_lookup_none text _ (by decide) (by decide))]
      | rw [filterStep_lookup_ne _ _ _ _ _ _ (by decide),
          filterStep_lookup_ne _ _ _ _ _ _ (by decide),
          filterStep_lookup_self _ _ _ _ _ (by
            rw [filterStep_lookup_ne _ _ _ _ _ _ (by decide),
              filterStep_lookup_ne _ _ _ _ _ _ (by decide),
              filterStep_lookup_ne _ _ _ _ _ _ (by decide)]
            exact preFilter_lookup_none text _ (by decide) (by decide))]
      | rw [filterStep_lookup_ne _ _ _ _ _ _ (by decide),
          filterStep_lookup_self _ _ _ _ _ (by
            rw [filterStep_lookup_ne _ _ _ _ _ _ (by decide),
              filterStep_lookup_ne _ _ _ _ _ _ (by decide),
              filterStep_lookup_ne _ _ _ _ _ _ (by decide),
              filterStep_lookup_ne _ _ _ _ _ _ (by decide)]
            exact preFilter_lookup_none text _ (by decide) (by decide))]
      | rw [filterStep_lookup_self _ _ _ _ _ (by
            rw [filterStep_lookup_ne _ _ _ _ _ _ (by decide),
              filterStep_lookup_ne _ _ _ _ _ _ (by decide),
              filterStep_lookup_ne _ _ _ _ _ _ (by decide),
              filterStep_lookup_ne _ _ _ _ _ _ (by decide),
              filterStep_lookup_ne _ _ _ _ _ _ (by decide)]
            exact preFilter_lookup_none text _ (by decide) (by decide))]

/-! ### Shape of the captured filter values (claim C10) -/

theorem matchTail_class (l cap : List Char) (h : matchTail l = some cap) :
    ∀ c ∈ cap, isFilterClass c = true := by
  unfold matchTail at h
  by_cases hw : (l.takeWhile isSpaceChar).isEmpty
  · simp [hw] at h
  · simp only [hw, if_false, Bool.false_eq_true] at h
    intro c hc
    rcases hq : (l.drop (l.takeWhile isSpaceChar).length).head? with _ | c0 <;> rw [hq] at h
    · rcases hr : (l.takeWhile isSpaceChar).reverse with _ | ⟨c', w⟩ <;> rw [hr] at h
      · exact absurd h (by simp)
      · rcases w with _ | ⟨c'', w'⟩
        · exact absurd h (by simp)
        · simp only [Option.some.injEq] at h
          subst h
          simp only [List.mem_singleton] at hc
          subst hc
          have : c ∈ (l.takeWhile isSpaceChar).reverse := by rw [hr]; exact List.mem_cons_self _ _
          have : c ∈ l.takeWhile isSpaceChar := List.mem_reverse.mp this
          have := List.mem_takeWhile_imp this
          simp [isFilterClass, this]
    · by_cases hl : isAsciiLetter c0
      · simp only [hl, if_true] at h
        simp only [Option.some.injEq] at h
        subst h
        exact List.mem_takeWhile_imp hc
      · simp only [hl, Bool.false_eq_true, if_false] at h
        rcases hr : (l.takeWhile isSpaceChar).reverse with _ | ⟨c', w⟩ <;> rw [hr] at h
        · exact absurd h (by simp)
        · rcases w with _ | ⟨c'', w'⟩
          · exact absurd h (by simp)
          · simp only [Option.some.injEq] at h
            subst h
            simp only [List.mem_singleton] at hc
            subst hc
            have : c ∈ (l.takeWhile isSpaceChar).reverse := by rw [hr]; exact List.mem_cons_self _ _
            have : c ∈ l.takeWhile isSpaceChar := List.mem_reverse.mp this
            have := List.mem_takeWhile_imp this
            simp [isFilterClass, this]

theorem trySeps_class (seps : List (List Char)) (r cap : List Char)
    (h : trySeps seps r = some cap) : ∀ c ∈ cap, isFilterClass c = true := by
  induction seps with
  | nil => simp [trySeps] at h
  | cons s ss ih =>
    unfold trySeps at h
    rcases hm : matchLit s r with _ | r' <;> simp only [hm] at h
    · exact ih h
    · rcases ht : matchTail r' with _ | cap' <;> simp only [ht, Option.some.injEq] at h
      · exact ih h
      · subst h
        exact matchTail_class r' cap' ht

theorem matchFilterAt_class (name : List Char) (seps : List (List Char))
    (l cap : List Char) (h : matchFilterAt name seps l = some cap) :
    ∀ c ∈ cap, isFilterClass c = true := by
  unfold matchFilterAt at h
  rcases hm : matchLit name l with _ | r1 <;> simp only [hm] at h
  · exact absurd h (by simp)
  · by_cases hw : (r1.takeWhile isSpaceChar).isEmpty
    · simp [hw] at h
    · simp only [hw, if_false, Bool.false_eq_true] at h
      exact trySeps_class _ _ _ h

theorem searchFilter_class (name : List Char) (seps : List (List Char))
    (l cap : List Char) (h : searchFilter name seps l = some cap) :
    ∀ c ∈ cap, isFilterClass c = true := by
  induction l with
  | nil =>
    unfold searchFilter at h
    exact matchFilterAt_class _ _ _ _ h
  | cons a t ih =>
    unfold searchFilter at h
    rcases hm : matchFilterAt name seps (a :: t) with _ | cap' <;>
      simp only [hm, Option.some.injEq] at h
    · exact ih h
    · subst h
      exact matchFilterAt_class _ _ _ _ hm

theorem getLast?_dropWhile_of_ne_nil {α : Type} (p : α → Bool) (l : List α)
    (h : l.dropWhile p ≠ []) : (l.dropWhile p).getLast? = l.getLast? := by
  induction l with
  | nil => simp [List.dropWhile] at h
  | cons a t ih =>
    by_cases hp : p a
    · rw [List.dropWhile_cons_of_pos hp] at h ⊢
      rcases t with _ | ⟨b, t'⟩
      · simp [List.dropWhile] at h
      · rw [List.getLast?_cons_cons]
        exact ih h
    · rw [List.dropWhile_cons_of_neg hp]

theorem mem_stripList (c : Char) (l : List Char) (h : c ∈ stripList l) : c ∈ l := by
  unfold stripList at h
  have h1 := (List.dropWhile_sublist (l := (l.reverse.dropWhile isSpaceChar).reverse)
    isSpaceChar).mem h
  have h2 : c ∈ l.reverse.dropWhile isSpaceChar := List.mem_reverse.mp h1
  have h3 := (List.dropWhile_sublist (l := l.reverse) isSpaceChar).mem h2
  exact List.mem_reverse.mp h3

theorem stripList_head? (l : List Char) (c : Char)
    (h : (stripList l).head? = some c) : isSpaceChar c = false := by
  unfold stripList at h
  have h2 := List.head?_dropWhile_not isSpaceChar (l.reverse.dropWhile isSpaceChar).reverse
  revert h2
  rw [h]
  exact fun h2 => h2

theorem stripList_getLast? (l : List Char) (c : Char)
    (h : (stripList l).getLast? = some c) : isSpaceChar c = false := by
  unfold stripList at h
  have hne : (l.reverse.dropWhile isSpaceChar).reverse.dropWhile isSpaceChar ≠ [] := by
    intro h0
    rw [h0] at h
    simp at h
  rw [getLast?_dropWhile_of_ne_nil _ _ hne, List.getLast?_reverse] at h
  have h2 := List.head?_dropWhile_not isSpaceChar l.reverse
  revert h2
  rw [h]
  exact fun h2 => h2

theorem filterCapture_good (text name : String) (seps : List String) (v : String)
    (h : filterCapture text name seps = some v) :
    (∀ c ∈ v.data, isFilterClass c = true) ∧
    (∀ c, v.data.head? = some c → isSpaceChar c = false) ∧
    (∀ c, v.data.getLast? = some c → isSpaceChar c = false) := by
  unfold filterCapture at h
  rcases hs : searchFilter name.data (seps.map String.data) text.data with _ | cap <;>
    rw [hs] at h
  · exact absurd h (by simp)
  · simp only [Option.map_some', Option.some.injEq] at h
    subst h
    refine ⟨?_, ?_, ?_⟩
    · intro c hc
      exact searchFilter_class _ _ _ _ hs c (mem_stripList c cap hc)
    · intro c hc
      exact stripList_head? cap c hc
    · intro c hc
      exact stripList_getLast? cap c hc

theorem mem_dictInsert (fs : List (String × String)) (k v k' v' : String)
    (h : (k, v) ∈ dictInsert fs k' v') : (k = k' ∧ v = v') ∨ (k, v) ∈ fs := by
  induction fs with
  | nil =>
    simp only [dictInsert, List.mem_singleton, Prod.mk.injEq] at h
    exact Or.inl h
  | cons hd t ih =>
    obtain ⟨a, b⟩ := hd
    unfold dictInsert at h
    by_cases hab : a = k'
    · simp only [hab, beq_self_eq_true, if_true] at h
      rcases List.mem_cons.mp h with h | h
      · simp only [Prod.mk.injEq] at h
        exact Or.inl h
      · exact Or.inr (List.mem_cons_of_mem _ h)
    · have hb : (a == k') = false := by simp [hab]
      rw [hb] at h
      simp only [Bool.false_eq_true, if_false] at h
      rcases List.mem_cons.mp h with h | h
      · exact Or.inr (by rw [h]; exact List.mem_cons_self _ _)
      · rcases ih h with h | h
        · exact Or.inl h
        · exact Or.inr (List.mem_cons_of_mem _ h)

theorem mem_timeStep (b : Bool) (v1 v2 : String) (p : Params) (k v : String)
    (h : (k, v) ∈ (timeStep b v1 v2 p).filters) :
    k = "date_from" ∨ k = "date_to" ∨ (k, v) ∈ p.filters := by
  unfold timeStep at h
  cases b
  · exact Or.inr (Or.inr h)
  · simp only [if_true] at h
    rcases mem_dictInsert _ _ _ _ _ h with ⟨hk, _⟩ | h
    · exact Or.inr (Or.inl hk)
    · rcases mem_dictInsert _ _ _ _ _ h with ⟨hk, _⟩ | h
      · exact Or.inl hk
      · exact Or.inr (Or.inr h)

theorem mem_timePeriodPass (pl : String) (p : Params) (k v : String)
    (h : (k, v) ∈ (timePeriodPass pl p).filters) :
    k = "date_from" ∨ k = "date_to" ∨ (k, v) ∈ p.filters := by
  unfold timePeriodPass at h
  rcases mem_timeStep _ _ _ _ _ _ h with h | h | h
  · exact Or.inl h
  · exact Or.inr (Or.inl h)
  rcases mem_timeStep _ _ _ _ _ _ h with h | h | h
  · exact Or.inl h
  · exact Or.inr (Or.inl h)
  rcases mem_timeStep _ _ _ _ _ _ h with h | h | h
  · exact Or.inl h
  · exact Or.inr (Or.inl h)
  rcases mem_timeStep _ _ _ _ _ _ h with h | h | h
  · exact Or.inl h
  · exact Or.inr (Or.inl h)
  rcases mem_timeStep _ _ _ _ _ _ h with h | h | h
  · exact Or.inl h
  · exact Or.inr (Or.inl h)
  rcases mem_timeStep _ _ _ _ _ _ h with h | h | h
  · exact Or.inl h
  · exact Or.inr (Or.inl h)
  · exact Or.inr (Or.inr h)

theorem mem_filterStep (text name : String) (seps : List String) (key : String)
    (p : Params) (k v : String) (h : (k, v) ∈ (filterStep text name seps key p).filters) :
    (k = key ∧ filterCapture text name seps = some v) ∨ (k, v) ∈ p.filters := by
  unfold filterStep at h
  rcases hc : filterCapture text name seps with _ | w <;> rw [hc] at h
  · exact Or.inr h
  · rcases mem_dictInsert _ _ _ _ _ h with ⟨hk, hv⟩ | h
    · exact Or.inl ⟨hk, by rw [hv]⟩
    · exact Or.inr h

/-- C10: every value stored under the six explicit-filter keys is built
from a capture of the class `[a-zA-Z\s]` and then stripped, so it consists
solely of ASCII letters and whitespace, with no leading or trailing
whitespace — digits, quotes and other punctuation can never occur in
these values for any prompt. -/
theorem filter_values_sanitized (prompt k v : String)
    (hk : k = "industry" ∨ k = "region" ∨ k = "size" ∨ k = "category" ∨
      k = "delivery_mode" ∨ k = "stage")
    (hmem : (k, v) ∈ (analyze_prompt prompt).filters) :
    (∀ c ∈ v.data, isFilterClass c = true) ∧
    (∀ c, v.data.head? = some c → isSpaceChar c = false) ∧
    (∀ c, v.data.getLast? = some c → isSpaceChar c = false) := by
  have hnd : k ≠ "date_from" ∧ k ≠ "date_to" := by
    rcases hk with h | h | h | h | h | h <;> subst h <;> exact ⟨by decide, by decide⟩
  unfold analyze_prompt filterPass at hmem
  rcases mem_filterStep _ _ _ _ _ _ _ hmem with ⟨_, hc⟩ | hmem
  · exact filterCapture_good _ _ _ _ hc
  rcases mem_filterStep _ _ _ _ _ _ _ hmem with ⟨_, hc⟩ | hmem
  · exact filterCapture_good _ _ _ _ hc
  rcases mem_filterStep _ _ _ _ _ _ _ hmem with ⟨_, hc⟩ | hmem
  · exact filterCapture_good _ _ _ _ hc
  rcases mem_filterStep _ _ _ _ _ _ _ hmem with ⟨_, hc⟩ | hmem
  · exact filterCapture_good _ _ _ _ hc
  rcases mem_filterStep _ _ _ _ _ _ _ hmem with ⟨_, hc⟩ | hmem
  · exact filterCapture_good _ _ _ _ hc
  rcases mem_filterStep _ _ _ _ _ _ _ hmem with ⟨_, hc⟩ | hmem
  · exact filterCapture_good _ _ _ _ hc
  rcases mem_timePeriodPass _ _ _ _ hmem with h | h | hmem
  · exact absurd h hnd.1
  · exact absurd h hnd.2
  · rw [queryTypePass_filters, dimensionPass_filters, metricPass_filters,
      entityPass_filters, limitStep_filters] at hmem
    simp [defaultParams] at hmem

/-- Witness for C10 on the prompt "industry is Healthcare". -/
theorem filter_values_sanitized_witness :
    ("industry", "Healthcare") ∈ (analyze_prompt "industry is Healthcare").filters ∧
    (∀ c ∈ "Healthcare".data, isFilterClass c = true) :=
  ⟨by decide,
   (filter_values_sanitized "industry is Healthcare" "industry" "Healthcare"
     (Or.inl rfl) (by decide)).1⟩

end TA
